import Mathlib

/-!
Shallow embedding of the order/payment core of the autocosmic backend:
`src/services/razorpay.service.ts` and `src/controllers/order.controller.ts`.

Modelling conventions:
* JSON string fields that may be `undefined` are `Option String`;
  JavaScript truthiness of such a field is `optTruthy` (missing and `""`
  are falsy).
* Timestamps (`Date.now()`) are milliseconds as `Nat`.
* Monetary numbers are exact rationals (`Rat`).
* Database effects are made explicit: the configuration lookup outcome and
  the success of each persistence call are inputs, and the database content
  is threaded as a value.
-/

namespace Autocosmic

/-- JavaScript truthiness of a possibly-missing string field:
`undefined` and the empty string are falsy, every other string is truthy. -/
def optTruthy : Option String → Bool
  | none => false
  | some s => s != ""

/-! Razorpay service (`src/services/razorpay.service.ts`). -/

/-- A constructed payment-gateway client (`new Razorpay({key_id, key_secret})`). -/
structure RazorpayClient where
  key_id : String
  key_secret : String
deriving Repr, DecidableEq

/-- The stored gateway configuration record: the `integration` row named
"Razorpay", with its `enabled` flag and the `settings` blob's
`apiKey` / `apiSecret` fields. -/
structure IntegrationRecord where
  enabled : Bool
  apiKey : Option String
  apiSecret : Option String
deriving Repr, DecidableEq

/-- Outcome of the configuration lookup
`prisma.integration.findUnique({where: {name: 'Razorpay'}})`:
a record, no record, or a thrown database error. -/
inductive FetchResult where
  | found (r : IntegrationRecord)
  | notFound
  | dbError
deriving Repr, DecidableEq

/-- The module-level mutable state of `razorpay.service.ts`:
`let razorpayInstance: Razorpay | null = null; let lastFetched: number = 0`. -/
structure RazorpayState where
  razorpayInstance : Option RazorpayClient
  lastFetched : Nat
deriving Repr, DecidableEq

/-- Result of one call to `getRazorpayInstance`: the returned client (or
`none` for the `null` returns), the module state after the call, and
whether a configuration lookup (database I/O) was performed. -/
structure AccessorResult where
  client : Option RazorpayClient
  state : RazorpayState
  didLookup : Bool
deriving Repr, DecidableEq

/-- The client constructed by `new Razorpay({key_id: keyId, key_secret:
keySecret})` from a configuration record. -/
def clientOf (r : IntegrationRecord) : RazorpayClient :=
  { key_id := r.apiKey.getD "", key_secret := r.apiSecret.getD "" }

/-- The cache-miss path of `getRazorpayInstance`: the configuration is
fetched; if present, enabled and both credentials truthy, a new client is
constructed, cached and timestamped; in every other case (absent, disabled,
incomplete, or lookup error) the cached instance is cleared and `none` is
returned.  `lastFetched` is only updated on successful construction, as in
the source. -/
def lookupRazorpay (now : Nat) (fetch : FetchResult) (st : RazorpayState) :
    AccessorResult :=
  match fetch with
  | .found r =>
    if r.enabled && optTruthy r.apiKey && optTruthy r.apiSecret then
      { client := some (clientOf r)
        state := { razorpayInstance := some (clientOf r), lastFetched := now }
        didLookup := true }
    else
      { client := none
        state := { st with razorpayInstance := none }
        didLookup := true }
  | .notFound =>
      { client := none
        state := { st with razorpayInstance := none }
        didLookup := true }
  | .dbError =>
      { client := none
        state := { st with razorpayInstance := none }
        didLookup := true }

/-- `getRazorpayInstance` from `razorpay.service.ts`, with the ambient clock
(`Date.now()`) and the database lookup outcome passed in explicitly.  On a
valid cache hit the cached client is returned with no lookup; otherwise the
call proceeds to `lookupRazorpay`, the part of the body after the cache
check. -/
def getRazorpayInstance (now : Nat) (fetch : FetchResult) (st : RazorpayState) :
    AccessorResult :=
  if st.razorpayInstance.isSome ∧ now - st.lastFetched < 60000 then
    { client := st.razorpayInstance, state := st, didLookup := false }
  else
    lookupRazorpay now fetch st

/-! Order controller (`src/controllers/order.controller.ts`). -/

/-- The selected variant inside a checkout line item; `attributes` is the
opaque JSON value snapshotted into the order item. -/
structure SelectedVariant where
  id : String
  price : Rat
  attributes : String
deriving Repr, DecidableEq

/-- One line item of the checkout payload (`orderData.items[k]`). -/
structure LineItem where
  id : String
  name : Option String
  selectedVariant : SelectedVariant
  quantity : Nat
deriving Repr, DecidableEq

/-- The shipping address; only `city` is read by this flow. -/
structure ShippingAddress where
  city : String
deriving Repr, DecidableEq

/-- The `order` part of the request body of `placeOrder`. -/
structure OrderData where
  items : List LineItem
  totalAmount : Rat
  shippingAddress : ShippingAddress
  paymentType : String
  deliveryType : String
  deliveryCharge : Rat
  appliedCouponCode : Option String
  discountAmount : Rat
  customerName : Option String
deriving Repr, DecidableEq

/-- The optional `guestDetails` part of the request body; only `email`
is read (`guestDetails?.email`). -/
structure GuestDetails where
  email : Option String
deriving Repr, DecidableEq

/-- A persisted order-item record (the nested `items.create` rows). -/
structure OrderItemRecord where
  productId : String
  variantId : String
  quantity : Nat
  priceAtPurchase : Rat
  variantSnapshot : String
deriving Repr, DecidableEq

/-- A persisted order record (`prisma.order.create` data). -/
structure OrderRecord where
  totalAmount : Rat
  status : String
  shippingAddress : ShippingAddress
  paymentType : String
  deliveryType : String
  deliveryCharge : Rat
  appliedCouponCode : Option String
  discountAmount : Rat
  userId : Option String
  customerName : Option String
  paymentStatus : String
  items : List OrderItemRecord
deriving Repr, DecidableEq

/-- The persisted state touched by `placeOrder`: orders (with their nested
items) and activity-log messages. -/
structure Db where
  orders : List OrderRecord
  activityLogs : List String
deriving Repr, DecidableEq

/-- The response of `placeOrder`: 401 authentication error, the generic
`next(error)` catch path, or the 201 success response carrying the
created order. -/
inductive PlaceOrderResult where
  | authError
  | errorPath
  | success (order : OrderRecord)
deriving Repr, DecidableEq

/-- The mapping applied to each input line item
(`orderData.items.map(item => ({...}))`). -/
def orderItemOf (item : LineItem) : OrderItemRecord :=
  { productId := item.id
    variantId := item.selectedVariant.id
    quantity := item.quantity
    priceAtPurchase := item.selectedVariant.price
    variantSnapshot := item.selectedVariant.attributes }

/-- The order record built by the `prisma.order.create` call of
`placeOrder`, including the nested items and the derived payment status. -/
def mkOrder (userId : Option String) (d : OrderData) : OrderRecord :=
  { totalAmount := d.totalAmount
    status := "Processing"
    shippingAddress := d.shippingAddress
    paymentType := d.paymentType
    deliveryType := d.deliveryType
    deliveryCharge := d.deliveryCharge
    appliedCouponCode := d.appliedCouponCode
    discountAmount := d.discountAmount
    userId := userId
    customerName := d.customerName
    paymentStatus := if d.paymentType = "cod" then "Pending" else "Success"
    items := d.items.map orderItemOf }

/-- The activity-feed message
(`Someone in city just purchased a "firstItemName".`), with
`orderData.items[0]?.name || 'an item'` for the item name. -/
def activityMessage (d : OrderData) : String :=
  let firstItemName :=
    match d.items.head? with
    | some item => if optTruthy item.name then item.name.getD "" else "an item"
    | none => "an item"
  "Someone in " ++ d.shippingAddress.city ++ " just purchased a \"" ++
    firstItemName ++ "\"."

/-- The guard `!userId && !guestDetails?.email` of `placeOrder`. -/
def authRejected (userId : Option String) (guestDetails : Option GuestDetails) :
    Bool :=
  !optTruthy userId && !optTruthy (guestDetails.bind GuestDetails.email)

/-- `placeOrder` from `order.controller.ts`.  The success of the two
persistence calls (`prisma.order.create`, `prisma.activityLog.create`) is
passed in as `orderCreateOk` / `activityLogOk`; a failing call throws into
the shared `catch`, which forwards to `next(error)`.  The order create is
atomic with its nested items; the activity-log write happens after it, so
its failure leaves the created order in place but reaches the same error
path. -/
def placeOrder (userId : Option String) (guestDetails : Option GuestDetails)
    (d : OrderData) (orderCreateOk activityLogOk : Bool) (db : Db) :
    PlaceOrderResult × Db :=
  if authRejected userId guestDetails then
    (.authError, db)
  else if !orderCreateOk then
    (.errorPath, db)
  else if !activityLogOk then
    (.errorPath, { db with orders := db.orders ++ [mkOrder userId d] })
  else
    (.success (mkOrder userId d),
      { orders := db.orders ++ [mkOrder userId d]
        activityLogs := db.activityLogs ++ [activityMessage d] })

/-! Payment-intent creation (`createRazorpayOrder`, amount computation). -/

/-- JavaScript `Math.round` on an exact rational: round to the nearest
integer with ties toward positive infinity, i.e. `⌊x + 1/2⌋`. -/
def jsMathRound (x : Rat) : Int := ⌊x + 1 / 2⌋

/-- The `options` object built by `createRazorpayOrder`:
`amount: Math.round(totalAmount * 100)`, `currency: "INR"`, and a receipt
string derived from `Date.now()`. -/
structure RazorpayOrderOptions where
  amount : Int
  currency : String
  receipt : String
deriving Repr, DecidableEq

/-- Builds the payment-intent options of `createRazorpayOrder` from the
input `totalAmount` and the current timestamp. -/
def mkRazorpayOptions (totalAmount : Rat) (now : Nat) : RazorpayOrderOptions :=
  { amount := jsMathRound (totalAmount * 100)
    currency := "INR"
    receipt := "receipt_order_" ++ toString now }

/-! Concrete sample data used by counterexamples and witnesses. -/

/-- A sample selected variant. -/
def sampleVariant : SelectedVariant :=
  { id := "v1", price := 499, attributes := "size:M,color:blue" }

/-- A sample checkout line item. -/
def sampleItem : LineItem :=
  { id := "p1", name := some "Shirt", selectedVariant := sampleVariant,
    quantity := 2 }

/-- A sample shipping address. -/
def sampleAddress : ShippingAddress := { city := "Pune" }

/-- A checkout payload whose items list is empty. -/
def emptyItemsOrder : OrderData :=
  { items := [], totalAmount := 0, shippingAddress := sampleAddress,
    paymentType := "cod", deliveryType := "standard", deliveryCharge := 0,
    appliedCouponCode := none, discountAmount := 0,
    customerName := some "A" }

/-- A checkout payload with one line item. -/
def sampleOrder : OrderData :=
  { emptyItemsOrder with items := [sampleItem], totalAmount := 998 }

/-- An empty database. -/
def emptyDb : Db := { orders := [], activityLogs := [] }

/-! Theorems about the gateway-client accessor. -/

/-- Helper: every branch of the cache-miss path performs a lookup. -/
theorem lookupRazorpay_didLookup (now : Nat) (fetch : FetchResult)
    (st : RazorpayState) : (lookupRazorpay now fetch st).didLookup = true := by
  cases fetch with
  | found r =>
    by_cases hb : (r.enabled && optTruthy r.apiKey && optTruthy r.apiSecret) = true
    · simp only [lookupRazorpay, if_pos hb]
    · simp only [lookupRazorpay, if_neg hb]
  | notFound => rfl
  | dbError => rfl

/-- Helper: when the cache-miss path returns no client, it clears the
cached instance. -/
theorem lookupRazorpay_state_none (now : Nat) (fetch : FetchResult)
    (st : RazorpayState) (h : (lookupRazorpay now fetch st).client = none) :
    (lookupRazorpay now fetch st).state.razorpayInstance = none := by
  cases fetch with
  | found r =>
    by_cases hb : (r.enabled && optTruthy r.apiKey && optTruthy r.apiSecret) = true
    · exfalso
      simp only [lookupRazorpay, if_pos hb] at h
      exact Option.noConfusion h
    · simp only [lookupRazorpay, if_neg hb]
  | notFound => rfl
  | dbError => rfl

/-- Helper: with no cached instance the accessor takes the lookup path. -/
theorem getRazorpayInstance_of_cleared (now : Nat) (fetch : FetchResult)
    (st : RazorpayState) (h : st.razorpayInstance = none) :
    getRazorpayInstance now fetch st = lookupRazorpay now fetch st := by
  unfold getRazorpayInstance
  rw [if_neg]
  intro hc
  rw [h] at hc
  exact absurd hc.1 (by simp)

/-- C1 counterexample: with a client constructed 1 second earlier still
cached (cache valid), `getRazorpayInstance` returns the cached client even
though the stored configuration record now has `enabled = false`; so the
claim that it returns no client "regardless of cache state" is false. -/
theorem C1_counterexample :
    ¬ ((getRazorpayInstance 2000
        (FetchResult.found { enabled := false, apiKey := some "k", apiSecret := some "s" })
        { razorpayInstance := some { key_id := "k", key_secret := "s" },
          lastFetched := 1000 }).client = none) := by
  decide

/-- C1 (amended): whenever no valid cached client exists (no cached
instance, or at least 60 seconds have elapsed since the recorded
construction time), a configuration record that is disabled or missing
either credential field makes `getRazorpayInstance` return no client. -/
theorem C1_amended (now : Nat) (st : RazorpayState) (r : IntegrationRecord)
    (hcache : st.razorpayInstance = none ∨ 60000 ≤ now - st.lastFetched)
    (hbad : r.enabled = false ∨ optTruthy r.apiKey = false ∨
      optTruthy r.apiSecret = false) :
    (getRazorpayInstance now (.found r) st).client = none := by
  have hmiss : ¬ (st.razorpayInstance.isSome = true ∧ now - st.lastFetched < 60000) := by
    rcases hcache with h | h
    · intro hc
      rw [h] at hc
      exact absurd hc.1 (by simp)
    · intro hc
      exact absurd hc.2 (Nat.not_lt.mpr h)
  have hcond : (r.enabled && optTruthy r.apiKey && optTruthy r.apiSecret) = false := by
    rcases hbad with h | h | h <;> simp [h]
  unfold getRazorpayInstance
  rw [if_neg hmiss]
  simp only [lookupRazorpay, hcond, Bool.false_eq_true, if_false]

/-- C1 witness: concrete cache-miss instance of `C1_amended`. -/
theorem C1_amended_witness :
    (getRazorpayInstance 0
      (.found { enabled := false, apiKey := some "k", apiSecret := some "s" })
      { razorpayInstance := none, lastFetched := 0 }).client = none :=
  C1_amended 0 { razorpayInstance := none, lastFetched := 0 }
    { enabled := false, apiKey := some "k", apiSecret := some "s" }
    (Or.inl rfl) (Or.inl rfl)

/-- C5: if a previously constructed client is cached and fewer than 60
seconds have elapsed since its construction time was recorded, the
accessor returns that cached client unchanged, performs no configuration
lookup (`didLookup = false`), and the outcome does not depend on what the
lookup would have returned. -/
theorem C5_cache_hit (now : Nat) (fetch : FetchResult) (st : RazorpayState)
    (c : RazorpayClient) (hc : st.razorpayInstance = some c)
    (ht : now - st.lastFetched < 60000) :
    getRazorpayInstance now fetch st =
      { client := some c, state := st, didLookup := false } := by
  have hcond : st.razorpayInstance.isSome ∧ now - st.lastFetched < 60000 :=
    ⟨by rw [hc]; rfl, ht⟩
  unfold getRazorpayInstance
  rw [if_pos hcond, hc]

/-- C5 witness: concrete cache hit 59.999 seconds after construction. -/
theorem C5_cache_hit_witness :
    getRazorpayInstance 59999 FetchResult.dbError
      { razorpayInstance := some { key_id := "k", key_secret := "s" },
        lastFetched := 0 } =
      { client := some { key_id := "k", key_secret := "s" },
        state := { razorpayInstance := some { key_id := "k", key_secret := "s" },
                   lastFetched := 0 },
        didLookup := false } :=
  C5_cache_hit 59999 FetchResult.dbError
    { razorpayInstance := some { key_id := "k", key_secret := "s" },
      lastFetched := 0 }
    { key_id := "k", key_secret := "s" } rfl (by decide)

/-- C9: whenever `getRazorpayInstance` returns no client, it also clears
the cached instance, so the very next call (any clock value, any lookup
outcome) misses the cache and performs a fresh configuration lookup; an
"unavailable" result is never served from the 60-second cache window. -/
theorem C9_unavailable_not_cached (now : Nat) (fetch : FetchResult)
    (st : RazorpayState)
    (h : (getRazorpayInstance now fetch st).client = none) :
    (getRazorpayInstance now fetch st).state.razorpayInstance = none ∧
    ∀ (now2 : Nat) (fetch2 : FetchResult),
      (getRazorpayInstance now2 fetch2
        (getRazorpayInstance now fetch st).state).didLookup = true := by
  have hclear : (getRazorpayInstance now fetch st).state.razorpayInstance = none := by
    by_cases hcond : st.razorpayInstance.isSome = true ∧ now - st.lastFetched < 60000
    · exfalso
      have hcl : (getRazorpayInstance now fetch st).client = st.razorpayInstance := by
        unfold getRazorpayInstance
        rw [if_pos hcond]
      rw [hcl] at h
      rw [h] at hcond
      exact absurd hcond.1 (by simp)
    · have heq : getRazorpayInstance now fetch st = lookupRazorpay now fetch st := by
        unfold getRazorpayInstance
        rw [if_neg hcond]
      rw [heq] at h ⊢
      exact lookupRazorpay_state_none now fetch st h
  refine ⟨hclear, fun now2 fetch2 => ?_⟩
  rw [getRazorpayInstance_of_cleared now2 fetch2 _ hclear]
  exact lookupRazorpay_didLookup now2 fetch2 _

/-- C9 witness: a disabled configuration yields no client, the cache is
cleared, and a call made 100ms later performs a lookup. -/
theorem C9_unavailable_not_cached_witness :
    (getRazorpayInstance 100
      (.found { enabled := false, apiKey := some "k", apiSecret := some "s" })
      { razorpayInstance := none, lastFetched := 0 }).state.razorpayInstance = none ∧
    (getRazorpayInstance 200 FetchResult.dbError
      (getRazorpayInstance 100
        (.found { enabled := false, apiKey := some "k", apiSecret := some "s" })
        { razorpayInstance := none, lastFetched := 0 }).state).didLookup = true :=
  ⟨(C9_unavailable_not_cached 100
      (.found { enabled := false, apiKey := some "k", apiSecret := some "s" })
      { razorpayInstance := none, lastFetched := 0 } (by decide)).1,
   (C9_unavailable_not_cached 100
      (.found { enabled := false, apiKey := some "k", apiSecret := some "s" })
      { razorpayInstance := none, lastFetched := 0 } (by decide)).2
      200 FetchResult.dbError⟩

/-! Theorems about the order placement flow. -/

/-- Helper: `placeOrder` either leaves the orders table unchanged or
appends exactly the one order built by `mkOrder`. -/
theorem placeOrder_orders_cases (userId : Option String)
    (g : Option GuestDetails) (d : OrderData) (ok1 ok2 : Bool) (db : Db) :
    (placeOrder userId g d ok1 ok2 db).2.orders = db.orders ∨
    (placeOrder userId g d ok1 ok2 db).2.orders =
      db.orders ++ [mkOrder userId d] := by
  unfold placeOrder
  by_cases h1 : authRejected userId g = true
  · rw [if_pos h1]
    exact Or.inl rfl
  · rw [if_neg h1]
    by_cases h2 : (!ok1) = true
    · rw [if_pos h2]
      exact Or.inl rfl
    · rw [if_neg h2]
      by_cases h3 : (!ok2) = true
      · rw [if_pos h3]
        exact Or.inr rfl
      · rw [if_neg h3]
        exact Or.inr rfl

/-- C2 counterexample: a checkout payload whose items list is empty is
accepted by `placeOrder` and creates an order with zero order items, so
not every created order has at least one item. -/
theorem C2_counterexample :
    (placeOrder (some "u1") none emptyItemsOrder true true emptyDb).1 =
      PlaceOrderResult.success (mkOrder (some "u1") emptyItemsOrder) ∧
    (placeOrder (some "u1") none emptyItemsOrder true true emptyDb).2.orders =
      [mkOrder (some "u1") emptyItemsOrder] ∧
    (mkOrder (some "u1") emptyItemsOrder).items = [] := by
  refine ⟨rfl, rfl, rfl⟩

/-- C2 (amended): every order created by `placeOrder` from a payload with
at least one line item has at least one order item (the flow never drops
items; it performs no emptiness validation of its own). -/
theorem C2_amended (userId : Option String) (g : Option GuestDetails)
    (d : OrderData) (ok1 ok2 : Bool) (db : Db) (o : OrderRecord)
    (hne : d.items ≠ [])
    (hmem : o ∈ (placeOrder userId g d ok1 ok2 db).2.orders)
    (hnew : o ∉ db.orders) :
    o.items ≠ [] := by
  rcases placeOrder_orders_cases userId g d ok1 ok2 db with hc | hc
  · rw [hc] at hmem
    exact absurd hmem hnew
  · rw [hc] at hmem
    rcases List.mem_append.mp hmem with h | h
    · exact absurd h hnew
    · rw [List.mem_singleton.mp h]
      simp only [mkOrder]
      intro hmap
      exact hne (List.map_eq_nil_iff.mp hmap)

/-- C2 witness: a one-item payload yields an order with a nonempty items
list. -/
theorem C2_amended_witness :
    (mkOrder (some "u1") sampleOrder).items ≠ [] :=
  C2_amended (some "u1") none sampleOrder true true emptyDb
    (mkOrder (some "u1") sampleOrder) (by decide) (by decide) (by decide)

/-- C3: when the caller passes the authentication guard and the order
create succeeds but the activity-feed write fails, `placeOrder` ends in
the same `errorPath` outcome as a failing primary order write, while the
created order is already persisted — so the feed failure is not
distinguished from a primary-write failure and the placement is not
reported as success. -/
theorem C3_feed_failure_not_isolated (userId : Option String)
    (g : Option GuestDetails) (d : OrderData) (db : Db)
    (hauth : authRejected userId g = false) :
    (placeOrder userId g d true false db).1 = PlaceOrderResult.errorPath ∧
    (placeOrder userId g d false false db).1 = PlaceOrderResult.errorPath ∧
    (placeOrder userId g d true false db).2.orders =
      db.orders ++ [mkOrder userId d] := by
  unfold placeOrder
  rw [hauth]
  simp only [Bool.false_eq_true, if_false, Bool.not_true, Bool.not_false,
    if_true, and_self]

/-- C3 witness: concrete instance with a one-item payload. -/
theorem C3_feed_failure_witness :
    (placeOrder (some "u1") none sampleOrder true false emptyDb).1 =
      PlaceOrderResult.errorPath ∧
    (placeOrder (some "u1") none sampleOrder false false emptyDb).1 =
      PlaceOrderResult.errorPath ∧
    (placeOrder (some "u1") none sampleOrder true false emptyDb).2.orders =
      emptyDb.orders ++ [mkOrder (some "u1") sampleOrder] :=
  C3_feed_failure_not_isolated (some "u1") none sampleOrder emptyDb (by decide)

/-- C4: every order created by `placeOrder` carries payment status
"Pending" when the payload's payment type is "cod" and "Success" for any
other payment type. -/
theorem C4_paymentStatus (userId : Option String) (g : Option GuestDetails)
    (d : OrderData) (ok1 ok2 : Bool) (db : Db) (o : OrderRecord)
    (hmem : o ∈ (placeOrder userId g d ok1 ok2 db).2.orders)
    (hnew : o ∉ db.orders) :
    o.paymentStatus = if d.paymentType = "cod" then "Pending" else "Success" := by
  rcases placeOrder_orders_cases userId g d ok1 ok2 db with hc | hc
  · rw [hc] at hmem
    exact absurd hmem hnew
  · rw [hc] at hmem
    rcases List.mem_append.mp hmem with h | h
    · exact absurd h hnew
    · rw [List.mem_singleton.mp h]
      rfl

/-- C4 witness: a cash-on-delivery order is created with status
"Pending". -/
theorem C4_paymentStatus_witness :
    (mkOrder (some "u1") emptyItemsOrder).paymentStatus =
      if emptyItemsOrder.paymentType = "cod" then "Pending" else "Success" :=
  C4_paymentStatus (some "u1") none emptyItemsOrder true true emptyDb
    (mkOrder (some "u1") emptyItemsOrder) (by decide) (by decide)

/-- C6: every order created by `placeOrder` from a payload with N line
items has exactly N order-item records, and the k-th record captures the
k-th input item's product id, variant id, quantity, the selected
variant's price at call time, and the snapshot of the variant's
attributes — the records are values copied from the payload, independent
of later catalog mutations. -/
theorem C6_items_snapshot (userId : Option String) (g : Option GuestDetails)
    (d : OrderData) (ok1 ok2 : Bool) (db : Db) (o : OrderRecord)
    (hmem : o ∈ (placeOrder userId g d ok1 ok2 db).2.orders)
    (hnew : o ∉ db.orders) :
    o.items.length = d.items.length ∧
    ∀ k : Nat,
      (o.items[k]?).map (fun oi =>
        (oi.productId, oi.variantId, oi.quantity, oi.priceAtPurchase,
          oi.variantSnapshot)) =
      (d.items[k]?).map (fun it =>
        (it.id, it.selectedVariant.id, it.quantity, it.selectedVariant.price,
          it.selectedVariant.attributes)) := by
  have ho : o = mkOrder userId d := by
    rcases placeOrder_orders_cases userId g d ok1 ok2 db with hc | hc
    · rw [hc] at hmem
      exact absurd hmem hnew
    · rw [hc] at hmem
      rcases List.mem_append.mp hmem with h | h
      · exact absurd h hnew
      · exact List.mem_singleton.mp h
  rw [ho]
  constructor
  · simp [mkOrder]
  · intro k
    simp only [mkOrder]
    rw [List.getElem?_map]
    cases d.items[k]? with
    | none => rfl
    | some it => rfl

/-- C6 witness: the one-item payload yields one record whose fields are
the input item's fields. -/
theorem C6_items_snapshot_witness :
    (mkOrder (some "u1") sampleOrder).items.length =
      sampleOrder.items.length ∧
    ((mkOrder (some "u1") sampleOrder).items[0]?).map (fun oi =>
      (oi.productId, oi.variantId, oi.quantity, oi.priceAtPurchase,
        oi.variantSnapshot)) =
    (sampleOrder.items[0]?).map (fun it =>
      (it.id, it.selectedVariant.id, it.quantity, it.selectedVariant.price,
        it.selectedVariant.attributes)) :=
  ⟨(C6_items_snapshot (some "u1") none sampleOrder true true emptyDb
      (mkOrder (some "u1") sampleOrder) (by decide) (by decide)).1,
   (C6_items_snapshot (some "u1") none sampleOrder true true emptyDb
      (mkOrder (some "u1") sampleOrder) (by decide) (by decide)).2 0⟩

/-- C7: an unauthenticated caller (no truthy user id) who supplies no
guest details is rejected with the authentication error and the database
is unchanged: no order, no order items, no activity-feed record. -/
theorem C7_unauthenticated_rejected (userId : Option String) (d : OrderData)
    (ok1 ok2 : Bool) (db : Db) (huser : optTruthy userId = false) :
    placeOrder userId none d ok1 ok2 db = (PlaceOrderResult.authError, db) := by
  have hrej : authRejected userId none = true := by
    unfold authRejected
    rw [huser]
    rfl
  unfold placeOrder
  rw [if_pos hrej]

/-- C7 witness: fully anonymous request against the empty database. -/
theorem C7_unauthenticated_rejected_witness :
    placeOrder none none sampleOrder true true emptyDb =
      (PlaceOrderResult.authError, emptyDb) :=
  C7_unauthenticated_rejected none sampleOrder true true emptyDb rfl

/-- C10: `placeOrder` reads guest details only in the authentication
guard: two requests that differ only in guest-details content and both
pass the guard produce identical results and identical persisted data,
and a guest checkout's order record carries no owning user (its `userId`
is `none`; the order record has no guest-contact field at all). -/
theorem C10_guest_details_frame (userId : Option String)
    (g1 g2 : Option GuestDetails) (d : OrderData) (ok1 ok2 : Bool) (db : Db)
    (h1 : authRejected userId g1 = false)
    (h2 : authRejected userId g2 = false) :
    placeOrder userId g1 d ok1 ok2 db = placeOrder userId g2 d ok1 ok2 db ∧
    (mkOrder none d).userId = none := by
  constructor
  · unfold placeOrder
    rw [h1, h2]
  · rfl

/-- C10 witness: two guest checkouts with different guest emails coincide. -/
theorem C10_guest_details_frame_witness :
    placeOrder none (some { email := some "a@b.c" }) sampleOrder true true
        emptyDb =
      placeOrder none (some { email := some "x@y.z" }) sampleOrder true true
        emptyDb ∧
    (mkOrder none sampleOrder).userId = none :=
  C10_guest_details_frame none (some { email := some "a@b.c" })
    (some { email := some "x@y.z" }) sampleOrder true true emptyDb
    (by decide) (by decide)

/-- C8: the payment-intent options carry an amount equal to the input
total multiplied by 100 and rounded to the nearest integer with ties
rounded up (the rounding of `Math.round`); at `totalAmount = 19.999` the
minor-unit amount is exactly 2000. -/
theorem C8_minor_unit_amount (t : Rat) (now : Nat) :
    (mkRazorpayOptions t now).amount = round (t * 100) ∧
    (mkRazorpayOptions (19999 / 1000) now).amount = 2000 := by
  constructor
  · simp [mkRazorpayOptions, jsMathRound, round_eq]
  · simp only [mkRazorpayOptions, jsMathRound]
    norm_num

end Autocosmic
